import Mathlib

/-!
Shallow embedding of the orderbook simulation script `optionalgo.py`.

The script's core is the function `simulate`, which seeds an orderbook from
five numeric parameters, performs four scripted mutations, and records a
snapshot (an event) after seeding and after each mutation.  Prices are
modelled as rationals; participants are the strings used by the script.
-/

namespace OptionAlgo

/-- An order: price, quantity, participant tag (the script uses the strings
"HUMAN", "ALGO", "OTHER"). -/
structure Order where
  price : ℚ
  qty : ℕ
  participant : String

deriving instance DecidableEq for Order

/-- The orderbook: a list of bids and a list of asks. -/
structure Orderbook where
  bids : List Order
  asks : List Order

deriving instance DecidableEq for Orderbook

/-- One event row appended by `record` in the script. -/
structure Event where
  t : ℕ
  actor : String
  action : String
  price : Option ℚ
  best_bid : ℚ
  best_ask : ℚ
  mid : ℚ
  note : Option String

deriving instance DecidableEq for Event

/-- The five simulation parameters read from the sidebar widgets. -/
structure Params where
  fair_price : ℚ
  algo_bid : ℚ
  algo_ask : ℚ
  human_buy : ℚ
  threshold_pct : ℚ

deriving instance DecidableEq for Params

/-- Price of `max(bids, key=lambda x: x[0])`: the maximum price in the list
(0 on the empty list, where the script would raise). -/
def bestBid : List Order → ℚ
  | [] => 0
  | o :: os => os.foldl (fun m x => max m x.price) o.price

/-- Price of `min(asks, key=lambda x: x[0])`: the minimum price in the list
(0 on the empty list, where the script would raise). -/
def bestAsk : List Order → ℚ
  | [] => 0
  | o :: os => os.foldl (fun m x => min m x.price) o.price

/-- The inner `record` helper of `simulate`: snapshot the book's best bid,
best ask and midpoint together with the event metadata. -/
def record (ob : Orderbook) (ts : ℕ) (actor action : String)
    (price : Option ℚ) (note : Option String) : Event :=
  let bb := bestBid ob.bids
  let ba := bestAsk ob.asks
  ⟨ts, actor, action, price, bb, ba, (bb + ba) / 2, note⟩

/-- t=0 book: seeded with the algo's initial bid and ask. -/
def book0 (p : Params) : Orderbook :=
  ⟨[⟨p.algo_bid, 100, "ALGO"⟩], [⟨p.algo_ask, 100, "ALGO"⟩]⟩

/-- t=1 book: the human bid `(human_buy, 10, HUMAN)` is appended to the bids. -/
def book1 (p : Params) : Orderbook :=
  ⟨(book0 p).bids ++ [⟨p.human_buy, 10, "HUMAN"⟩], (book0 p).asks⟩

/-- t=2 book: `bids[0]` is replaced by `(algo_bid + 2, 100, ALGO)`. -/
def book2 (p : Params) : Orderbook :=
  ⟨(book1 p).bids.set 0 ⟨p.algo_bid + 2, 100, "ALGO"⟩, (book1 p).asks⟩

/-- `sell_trigger = fair_price * (1 + threshold_pct / 100)`. -/
def sell_trigger (p : Params) : ℚ :=
  p.fair_price * (1 + p.threshold_pct / 100)

/-- t=3 book: `asks[0]` is replaced by `(sell_trigger, 100, ALGO)`. -/
def book3 (p : Params) : Orderbook :=
  ⟨(book2 p).bids, (book2 p).asks.set 0 ⟨sell_trigger p, 100, "ALGO"⟩⟩

/-- t=4 book: `asks[0]` and `bids[0]` are replaced by the original algo
quotes; the human bid at index 1 is untouched. -/
def book4 (p : Params) : Orderbook :=
  ⟨(book3 p).bids.set 0 ⟨p.algo_bid, 100, "ALGO"⟩,
   (book3 p).asks.set 0 ⟨p.algo_ask, 100, "ALGO"⟩⟩

/-- The `simulate` function: five snapshots of the successive book states. -/
def simulate (p : Params) : List Event :=
  [record (book0 p) 0 "INIT" "Initial quotes" none none,
   record (book1 p) 1 "HUMAN" "Post bid" (some p.human_buy)
     (some ("Human places limit buy")),
   record (book2 p) 2 "ALGO" "Improves bid" (some (p.algo_bid + 2))
     (some ("Algo moves bid up slightly")),
   record (book3 p) 3 "ALGO" "Sell trigger" (some (sell_trigger p))
     (some ("Algo prepares to sell at threshold")),
   record (book4 p) 4 "ALGO" "Reset quotes" none
     (some ("Algo resets to original quotes"))]

/-- Placeholder event used as the `getD` default; `simulate` always has five
entries, so it is never actually returned at indices 0..4. -/
def noEvent : Event := ⟨0, "", "", none, 0, 0, 0, none⟩

/-- The spec's default parameter values. -/
def defaultParams : Params := ⟨40, 20, 100, 21, 20⟩

/-- Claim C1, counterexample: at the spec's own default inputs
(fair_price=40, algo_bid=20, algo_ask=100, human_buy=21, threshold_pct=20,
with threshold_pct in [0,100]), the t=4 record does not have
best_bid = algo_bid and best_ask = algo_ask: its best_bid is 21, not 20,
because the human bid appended at t=1 is still in the book. -/
theorem C1_reset_counterexample :
    ¬ (((simulate defaultParams).getD 4 noEvent).best_bid = 20 ∧
       ((simulate defaultParams).getD 4 noEvent).best_ask = 100) := by
  intro h
  have hb := h.1
  simp [simulate, record, book4, book3, book2, book1, book0, bestBid, bestAsk,
    sell_trigger, defaultParams] at hb
  norm_num at hb

/-- Claim C1, amended: for every input quintuple, the t=4 record produced by
simulate has best_ask = algo_ask, but best_bid = max(algo_bid, human_buy),
since the human bid appended at t=1 remains in the bid sequence; best_bid
equals algo_bid only when human_buy ≤ algo_bid. -/
theorem C1_reset_amended (p : Params) :
    ((simulate p).getD 4 noEvent).best_bid = max p.algo_bid p.human_buy ∧
    ((simulate p).getD 4 noEvent).best_ask = p.algo_ask := by
  constructor <;>
    simp [simulate, record, book4, book3, book2, book1, book0, bestBid, bestAsk]

/-- Claim C2, counterexample: for fair_price=40, algo_bid=20, algo_ask=100,
human_buy=21, threshold_pct=20, the (best_bid, best_ask) sequence produced by
simulate is not the claimed one: the t=4 pair is (21, 100), not (20, 100). -/
theorem C2_scenario_counterexample :
    (simulate defaultParams).map (fun e => (e.best_bid, e.best_ask)) ≠
      [(20, 100), (21, 100), (22, 100), (22, 48), (20, 100)] := by
  simp [simulate, record, book4, book3, book2, book1, book0, bestBid, bestAsk,
    sell_trigger, defaultParams]
  intro h1 h2 h3
  norm_num

/-- Claim C2, amended: for fair_price=40, algo_bid=20, algo_ask=100,
human_buy=21, threshold_pct=20, simulate produces the (best_bid, best_ask)
sequence t0 (20, 100), t1 (21, 100), t2 (22, 100), t3 (22, 48),
t4 (21, 100). -/
theorem C2_scenario_amended :
    (simulate defaultParams).map (fun e => (e.best_bid, e.best_ask)) =
      [(20, 100), (21, 100), (22, 100), (22, 48), (21, 100)] := by
  simp [simulate, record, book4, book3, book2, book1, book0, bestBid, bestAsk,
    sell_trigger, defaultParams]
  norm_num

/-- Claim C3: for every input quintuple, simulate returns exactly five
records, with timestamps 0,1,2,3,4 strictly increasing, actors
INIT, HUMAN, ALGO, ALGO, ALGO, and actions "Initial quotes", "Post bid",
"Improves bid", "Sell trigger", "Reset quotes" in that order. -/
theorem C3_five_records (p : Params) :
    (simulate p).length = 5 ∧
    (simulate p).map Event.t = [0, 1, 2, 3, 4] ∧
    List.Chain' (fun a b => a < b) ((simulate p).map Event.t) ∧
    (simulate p).map Event.actor = ["INIT", "HUMAN", "ALGO", "ALGO", "ALGO"] ∧
    (simulate p).map Event.action =
      ["Initial quotes", "Post bid", "Improves bid", "Sell trigger",
       "Reset quotes"] := by
  refine ⟨?_, ?_, ?_, ?_, ?_⟩ <;> simp [simulate, record]

/-- Claim C4: for every input quintuple, the t=1 record produced by simulate
has best_bid = max(algo_bid, human_buy): the human bid (human_buy, 10, HUMAN)
is appended to the bid sequence, not replacing the algo bid. -/
theorem C4_t1_best_bid (p : Params) :
    ((simulate p).getD 1 noEvent).best_bid = max p.algo_bid p.human_buy := by
  simp [simulate, record, book1, book0, bestBid]

/-- Claim C5: for every input quintuple, the t=3 record produced by simulate
has best_ask = fair_price * (1 + threshold_pct / 100) exactly, and that same
value is recorded as the event's price. -/
theorem C5_t3_sell_trigger (p : Params) :
    ((simulate p).getD 3 noEvent).best_ask =
      p.fair_price * (1 + p.threshold_pct / 100) ∧
    ((simulate p).getD 3 noEvent).price =
      some (p.fair_price * (1 + p.threshold_pct / 100)) := by
  constructor <;>
    simp [simulate, record, book3, book2, book1, book0, bestAsk, sell_trigger]

/-- Claim C6: for every input quintuple and every record of the result
sequence, the mid field equals (best_bid + best_ask) / 2 exactly, and each
record's best_bid and best_ask are the maximum bid price and minimum ask
price over the book state at the time of that snapshot. -/
theorem C6_mid_is_average (p : Params) :
    (simulate p).map Event.mid =
      (simulate p).map (fun e => (e.best_bid + e.best_ask) / 2) ∧
    (simulate p).map Event.best_bid =
      [bestBid (book0 p).bids, bestBid (book1 p).bids, bestBid (book2 p).bids,
       bestBid (book3 p).bids, bestBid (book4 p).bids] ∧
    (simulate p).map Event.best_ask =
      [bestAsk (book0 p).asks, bestAsk (book1 p).asks, bestAsk (book2 p).asks,
       bestAsk (book3 p).asks, bestAsk (book4 p).asks] := by
  refine ⟨?_, ?_, ?_⟩ <;> simp [simulate, record]

/-- Claim C7: best_ask ≥ best_bid is not guaranteed: there is a valid input
quintuple (threshold_pct in [0,100]) whose result sequence contains a record
with best_ask strictly below best_bid (a crossed book). -/
theorem C7_crossed_book_possible :
    ∃ p : Params, 0 ≤ p.threshold_pct ∧ p.threshold_pct ≤ 100 ∧
      ∃ e ∈ simulate p, e.best_ask < e.best_bid := by
  refine ⟨⟨10, 50, 60, 1, 0⟩, by norm_num, by norm_num,
    (simulate ⟨10, 50, 60, 1, 0⟩).getD 3 noEvent, ?_, ?_⟩
  · simp [simulate, record, book4, book3, book2, book1, book0, bestBid, bestAsk,
      sell_trigger]
  · simp [simulate, record, book4, book3, book2, book1, book0, bestBid, bestAsk,
      sell_trigger]
    norm_num

/-- Claim C8: simulate is deterministic: two invocations whose five parameter
values agree produce identical result sequences; the output is a function of
the parameters alone, with no hidden state between runs. -/
theorem C8_deterministic (p q : Params)
    (h1 : p.fair_price = q.fair_price) (h2 : p.algo_bid = q.algo_bid)
    (h3 : p.algo_ask = q.algo_ask) (h4 : p.human_buy = q.human_buy)
    (h5 : p.threshold_pct = q.threshold_pct) :
    simulate p = simulate q := by
  cases p
  cases q
  simp_all

/-- Witness for C8 at the default parameters. -/
theorem C8_deterministic_witness :
    simulate defaultParams = simulate defaultParams :=
  C8_deterministic defaultParams defaultParams rfl rfl rfl rfl rfl

/-- Claim C9: for every input quintuple, the bid and ask sequences are
nonempty at all five snapshot points of a simulate run (after seeding and
after each of the four mutations). -/
theorem C9_books_nonempty (p : Params) :
    (book0 p).bids ≠ [] ∧ (book0 p).asks ≠ [] ∧
    (book1 p).bids ≠ [] ∧ (book1 p).asks ≠ [] ∧
    (book2 p).bids ≠ [] ∧ (book2 p).asks ≠ [] ∧
    (book3 p).bids ≠ [] ∧ (book3 p).asks ≠ [] ∧
    (book4 p).bids ≠ [] ∧ (book4 p).asks ≠ [] := by
  refine ⟨?_, ?_, ?_, ?_, ?_, ?_, ?_, ?_, ?_, ?_⟩ <;>
    simp [book4, book3, book2, book1, book0]

/-- Claim C10: the human bid appended at t=1 persists for the rest of the
run: every record at t ≥ 1 has best_bid ≥ human_buy, best_bid at t=2 and t=3
equals max(algo_bid + 2, human_buy), and best_bid at t=4 equals
max(algo_bid, human_buy). -/
theorem C10_human_bid_persists (p : Params) :
    p.human_buy ≤ ((simulate p).getD 1 noEvent).best_bid ∧
    p.human_buy ≤ ((simulate p).getD 2 noEvent).best_bid ∧
    p.human_buy ≤ ((simulate p).getD 3 noEvent).best_bid ∧
    p.human_buy ≤ ((simulate p).getD 4 noEvent).best_bid ∧
    ((simulate p).getD 2 noEvent).best_bid = max (p.algo_bid + 2) p.human_buy ∧
    ((simulate p).getD 3 noEvent).best_bid = max (p.algo_bid + 2) p.human_buy ∧
    ((simulate p).getD 4 noEvent).best_bid = max p.algo_bid p.human_buy := by
  refine ⟨?_, ?_, ?_, ?_, ?_, ?_, ?_⟩ <;>
    simp [simulate, record, book4, book3, book2, book1, book0, bestBid]

end OptionAlgo
